import Mathlib

/-!
Shallow embedding of `src/lib/util/smart-app-context.js` from the
smartapp-sdk-nodejs repository: the `SmartAppContext` class, its lifecycle
payload normalization, its token/client lifecycle helpers and its
configuration accessors.

JavaScript conventions used throughout the embedding:
* a field that may be `undefined` is an `Option`;
* reading a property of `undefined` throws a `TypeError`, so computations
  that can throw synchronously return `Except JsError`;
* a promise that can reject carries an `Except RejectReason` value nested
  inside the synchronous `Except JsError` layer;
* the JavaScript truthiness of a string value: `undefined` and the empty
  string are falsy, every other string is truthy.

Host built-ins (`new Date(...)`, `Number(...)`, `toLocaleTimeString`) and
the external RemoteAPIClient collaborator (`../api`, outside the modelled
source) are abstracted as explicit parameters (`JsHost`, `DeviceApi`);
concrete instances are supplied for witnesses.
-/

namespace SmartAppSdk

/-- JavaScript runtime errors thrown synchronously by the modelled code.
The only kind the code can produce is a `TypeError` from reading a
property of `undefined`. -/
inductive JsError
  | typeError
  deriving DecidableEq

/-- Truthiness of an optional string value: `undefined` and `""` are falsy. -/
def jsTruthy : Option String → Bool
  | none => false
  | some s => s != ""

/-- JavaScript disjunction `a || b` on optional string values. -/
def jsOrStr (a b : Option String) : Option String :=
  if jsTruthy a then a else b

/-- Payload of a `stringConfig` tagged config entry. -/
structure StringConfig where
  value : String
  deriving DecidableEq

/-- Payload of a `modeConfig` tagged config entry. -/
structure ModeConfig where
  modeId : String
  deriving DecidableEq

/-- Payload of a `deviceConfig` tagged config entry. -/
structure DeviceConfig where
  deviceId : String
  componentId : String
  deriving DecidableEq

/-- One config entry; in the JSON each entry carries at most one of the
tagged payloads and the accessors read the one they expect, throwing a
`TypeError` when it is absent. -/
structure ConfigEntry where
  stringConfig : Option StringConfig
  modeConfig : Option ModeConfig
  deviceConfig : Option DeviceConfig
  deriving DecidableEq

/-- The config map: a JavaScript object mapping config key names to arrays
of config entries. -/
abbrev ConfigMap := List (String × List ConfigEntry)

/-- The `installedApp` sub-object common to several lifecycle payload shapes. -/
structure InstalledApp where
  installedAppId : Option String
  locationId : Option String
  config : Option ConfigMap
  deriving DecidableEq

/-- The `eventData` sub-object of an EVENT payload. -/
structure EventData where
  authToken : Option String
  installedApp : Option InstalledApp
  deriving DecidableEq

/-- The `installData` / `updateData` sub-object of an INSTALL or UPDATE payload. -/
structure InstallData where
  authToken : Option String
  refreshToken : Option String
  installedApp : Option InstalledApp
  deriving DecidableEq

/-- The `configurationData` sub-object of a CONFIGURATION payload. -/
structure ConfigurationData where
  installedAppId : Option String
  locationId : Option String
  config : Option ConfigMap
  deriving DecidableEq

/-- The `uninstallData` sub-object of an UNINSTALL payload. -/
structure UninstallData where
  installedApp : Option InstalledApp
  deriving DecidableEq

/-- The `parameters` sub-object of an EXECUTE payload. -/
structure ExecuteParameters where
  locale : Option String
  deriving DecidableEq

/-- The `executeData` sub-object of an EXECUTE payload. -/
structure ExecuteData where
  authToken : Option String
  installedApp : Option InstalledApp
  parameters : Option ExecuteParameters
  deriving DecidableEq

/-- The `client` sub-object of a payload, carrying the client language. -/
structure ClientInfo where
  language : Option String
  deriving DecidableEq

/-- A raw inbound lifecycle payload, with every field optional as in the
untyped JSON the constructor receives. -/
structure PayloadData where
  lifecycle : Option String
  messageType : Option String
  executionId : Option String
  locale : Option String
  client : Option ClientInfo
  eventData : Option EventData
  installData : Option InstallData
  updateData : Option InstallData
  configurationData : Option ConfigurationData
  uninstallData : Option UninstallData
  executeData : Option ExecuteData
  authToken : Option String
  refreshToken : Option String
  installedAppId : Option String
  locationId : Option String
  config : Option ConfigMap
  deriving DecidableEq

/-- A payload with every field absent; concrete payloads are built by
structure update from it. -/
def emptyPayload : PayloadData where
  lifecycle := none
  messageType := none
  executionId := none
  locale := none
  client := none
  eventData := none
  installData := none
  updateData := none
  configurationData := none
  uninstallData := none
  executeData := none
  authToken := none
  refreshToken := none
  installedAppId := none
  locationId := none
  config := none

/-- Credential record persisted in the external context store. -/
structure ContextRecord where
  authToken : Option String
  refreshToken : Option String
  locationId : Option String
  deriving DecidableEq

/-- The async-mutex shared across client rebuilds; only its identity
matters to the modelled code, which never inspects it. -/
structure ApiMutex where
  id : Nat
  deriving DecidableEq

/-- The mutex produced by `new Mutex()`. -/
def freshMutex : ApiMutex := { id := 0 }

/-- Static settings of the owning SmartApp, read from `app._*` fields.
The opaque `_log` collaborator is never read by the modelled code and is
omitted. The context store is the external ContextStore collaborator,
modelled as a pure lookup from installedAppId to a stored record. -/
structure AppSettings where
  localizationEnabled : Bool
  clientId : Option String
  clientSecret : Option String
  apiUrl : Option String
  refreshUrl : Option String
  contextStore : Option (Option String → Option ContextRecord)

/-- The record of constructor arguments captured by `new SmartThingsApi(...)`.
The client's behaviour lives in `../api`, outside the modelled source; only
the data passed into it is modelled here (the opaque `log` argument is
omitted). -/
structure SmartThingsApi where
  authToken : Option String
  refreshToken : Option String
  clientId : Option String
  clientSecret : Option String
  apiUrl : Option String
  refreshUrl : Option String
  locationId : Option String
  installedAppId : Option String
  contextStore : Option (Option String → Option ContextRecord)
  apiMutex : Option ApiMutex

/-- The `this.api` field: initialized to the plain object `{}` (which is
truthy and can have a `locationId` assigned onto it) and replaced by a
`SmartThingsApi` instance when credentials are known. -/
inductive ApiSlot
  | emptyObj (locationId : Option String)
  | client (api : SmartThingsApi)

/-- The normalized execution context produced by the constructor. -/
structure SmartAppContext where
  app : AppSettings
  apiMutex : Option ApiMutex
  event : PayloadData
  executionId : Option String
  installedAppId : Option String
  locationId : Option String
  config : Option ConfigMap
  locale : Option String
  headers : Option String
  api : ApiSlot

/-- The fields assigned by one arm of the constructor's `switch`; fields an
arm leaves unassigned stay `undefined`. -/
structure BranchResult where
  authToken : Option String
  refreshToken : Option String
  executionId : Option String
  installedAppId : Option String
  locationId : Option String
  config : Option ConfigMap
  locale : Option String
  deriving DecidableEq

/-- The locale expression `(data.client && data.client.language) || data.locale`
shared by the INSTALL, UPDATE and CONFIGURATION arms. -/
def localeFromClient (d : PayloadData) : Option String :=
  jsOrStr (d.client.bind (fun c => c.language)) d.locale

/-- The first statement of the UPDATE arm: `data.client = undefined`,
a mutation of the caller's payload object. -/
def clearClientIfUpdate (disc : Option String) (d : PayloadData) : PayloadData :=
  if disc = some "UPDATE" then { d with client := none } else d

/-- The `switch (lifecycle || messageType)` of the constructor, producing the
fields assigned by the matched arm or the `TypeError` thrown when a nested
sub-object the arm dereferences is `undefined`. -/
def runBranch (disc : Option String) (d : PayloadData) : Except JsError BranchResult :=
  if disc = some "EVENT" then
    match d.eventData with
    | none => Except.error JsError.typeError
    | some ed =>
      match ed.installedApp with
      | none => Except.error JsError.typeError
      | some ia =>
        Except.ok {
          authToken := ed.authToken,
          refreshToken := none,
          executionId := d.executionId,
          installedAppId := ia.installedAppId,
          locationId := ia.locationId,
          config := ia.config,
          locale := d.locale }
  else if disc = some "INSTALL" then
    match d.installData with
    | none => Except.error JsError.typeError
    | some idata =>
      match idata.installedApp with
      | none => Except.error JsError.typeError
      | some ia =>
        Except.ok {
          authToken := idata.authToken,
          refreshToken := idata.refreshToken,
          executionId := d.executionId,
          installedAppId := ia.installedAppId,
          locationId := ia.locationId,
          config := ia.config,
          locale := localeFromClient d }
  else if disc = some "UPDATE" then
    match d.updateData with
    | none => Except.error JsError.typeError
    | some udata =>
      match udata.installedApp with
      | none => Except.error JsError.typeError
      | some ia =>
        Except.ok {
          authToken := udata.authToken,
          refreshToken := udata.refreshToken,
          executionId := d.executionId,
          installedAppId := ia.installedAppId,
          locationId := ia.locationId,
          config := ia.config,
          locale := localeFromClient d }
  else if disc = some "CONFIGURATION" then
    match d.configurationData with
    | none => Except.error JsError.typeError
    | some cd =>
      Except.ok {
        authToken := none,
        refreshToken := none,
        executionId := d.executionId,
        installedAppId := cd.installedAppId,
        locationId := cd.locationId,
        config := cd.config,
        locale := localeFromClient d }
  else if disc = some "UNINSTALL" then
    match d.uninstallData with
    | none => Except.error JsError.typeError
    | some ud =>
      match ud.installedApp with
      | none => Except.error JsError.typeError
      | some ia =>
        Except.ok {
          authToken := none,
          refreshToken := none,
          executionId := d.executionId,
          installedAppId := ia.installedAppId,
          locationId := ia.locationId,
          config := none,
          locale := none }
  else if disc = some "EXECUTE" then
    match d.executeData with
    | none => Except.error JsError.typeError
    | some ed =>
      match ed.installedApp with
      | none => Except.error JsError.typeError
      | some ia =>
        match ed.parameters with
        | none => Except.error JsError.typeError
        | some ps =>
          Except.ok {
            authToken := ed.authToken,
            refreshToken := none,
            executionId := d.executionId,
            installedAppId := ia.installedAppId,
            locationId := ia.locationId,
            config := ia.config,
            locale := ps.locale }
  else
    Except.ok {
      authToken := d.authToken,
      refreshToken := d.refreshToken,
      executionId := some "",
      installedAppId := d.installedAppId,
      locationId := d.locationId,
      config := d.config,
      locale := d.locale }

/-- The `new SmartThingsApi({...})` call of the constructor and of
`retrieveTokens`, capturing its arguments. -/
def buildApi (app : AppSettings) (authToken refreshToken locationId installedAppId : Option String)
    (mu : Option ApiMutex) : SmartThingsApi where
  authToken := authToken
  refreshToken := refreshToken
  clientId := app.clientId
  clientSecret := app.clientSecret
  apiUrl := app.apiUrl
  refreshUrl := app.refreshUrl
  locationId := locationId
  installedAppId := installedAppId
  contextStore := app.contextStore
  apiMutex := mu

/-- Assembly of the context after the `switch`: localization headers when
enabled and a locale was resolved, and the remote client when an auth token
was found (otherwise `this.api` keeps its initial `{}` value). -/
def mkContext (app : AppSettings) (d : PayloadData) (mu : Option ApiMutex)
    (b : BranchResult) : SmartAppContext where
  app := app
  apiMutex := mu
  event := d
  executionId := b.executionId
  installedAppId := b.installedAppId
  locationId := b.locationId
  config := b.config
  locale := b.locale
  headers := if app.localizationEnabled && jsTruthy b.locale then b.locale else none
  api :=
    if jsTruthy b.authToken then
      ApiSlot.client (buildApi app b.authToken b.refreshToken b.locationId b.installedAppId mu)
    else
      ApiSlot.emptyObj none

/-- The `SmartAppContext` constructor: normalizes one raw lifecycle payload
into a context. The second component is the caller's payload object after
the call, observing the UPDATE arm's mutation of it; the first is the
constructed context or the `TypeError` the constructor threw. -/
def normalizeLifecycle (app : AppSettings) (data : PayloadData) (mu : Option ApiMutex) :
    Except JsError SmartAppContext × PayloadData :=
  let disc := jsOrStr data.lifecycle data.messageType
  let d := clearClientIfUpdate disc data
  (match runBranch disc d with
   | Except.error e => Except.error e
   | Except.ok b => Except.ok (mkContext app d mu b), d)

/-- The six discriminator values the constructor's `switch` has arms for. -/
def knownLifecycles : List String :=
  ["EVENT", "INSTALL", "UPDATE", "CONFIGURATION", "UNINSTALL", "EXECUTE"]

/-- The `setLocationId(id)` method: assigns the context's `locationId` and,
since `this.api` is always a truthy object (the initial `{}` or a client),
assigns the same value onto it. -/
def setLocationId (ctx : SmartAppContext) (id : String) : SmartAppContext :=
  { ctx with
    locationId := some id,
    api :=
      match ctx.api with
      | ApiSlot.emptyObj _ => ApiSlot.emptyObj (some id)
      | ApiSlot.client a => ApiSlot.client { a with locationId := some id } }

/-- The effective context-store lookup performed by `retrieveTokens`:
`undefined` when no store is configured or when the store has no record for
this `installedAppId`. -/
def storeLookup (ctx : SmartAppContext) : Option ContextRecord :=
  match ctx.app.contextStore with
  | none => none
  | some store => store ctx.installedAppId

/-- The `retrieveTokens()` method: when a context store is configured and
holds a record for this installedAppId, overwrite `locationId` and rebuild
the remote client (reusing the existing mutex or creating a fresh one);
otherwise return the context unchanged. The method always returns `this`. -/
def retrieveTokens (ctx : SmartAppContext) : SmartAppContext :=
  match ctx.app.contextStore with
  | none => ctx
  | some store =>
    match store ctx.installedAppId with
    | none => ctx
    | some data =>
      { ctx with
        locationId := data.locationId,
        api := ApiSlot.client
          (buildApi ctx.app data.authToken data.refreshToken data.locationId
            ctx.installedAppId
            (some (match ctx.apiMutex with
                   | some m => m
                   | none => freshMutex))) }

/-- Abstract numeric value produced by the host `Number(...)` coercion.
Real JavaScript numbers are IEEE doubles; nothing in the modelled code
inspects the magnitude, only definedness, so an integer-carrying model of
the host coercion suffices. -/
inductive JsNumber
  | nan
  | val (x : Int)
  deriving DecidableEq

/-- A JavaScript `Date` object as produced by `new Date(string)`: either a
valid instant or the invalid-date sentinel. Either way the object itself is
truthy. -/
inductive JsDate
  | invalid
  | valid (millis : Int)
  deriving DecidableEq

/-- Caller-supplied `toLocaleTimeString` options object. `hour`, `minute`
and `extra` are its own enumerable entries; `ctorIsObject` models the
`options.constructor === Object` test (false for non-plain objects). -/
structure TimeOptions where
  ctorIsObject : Bool
  hour : Option String
  minute : Option String
  extra : List (String × String)
  deriving DecidableEq

/-- The `Object.entries(options).length === 0` test. -/
def TimeOptions.isEmptyObj (o : TimeOptions) : Bool :=
  o.hour.isNone && o.minute.isNone && o.extra.isEmpty

/-- The default-filling step of `configTimeString`: on an empty plain
options object, assign `hour` and `minute` (mutating the caller's object). -/
def defaultedOptions (o : TimeOptions) : TimeOptions :=
  if o.isEmptyObj && o.ctorIsObject then
    { o with hour := some "2-digit", minute := some "2-digit" }
  else o

/-- Host JavaScript built-ins used by the accessors. `parseDate` models
`new Date(string)`, `toNumber` models `Number(string)` and `formatTime`
models `Date.prototype.toLocaleTimeString(locale, options)`; their exact
behaviour is host-specific and external to the modelled source. -/
structure JsHost where
  parseDate : String → JsDate
  toNumber : String → JsNumber
  formatTime : JsDate → Option String → TimeOptions → String

/-- Evaluation of `entry[0].stringConfig.value` on a config entry array:
`entry[0]` on an empty array is `undefined`, and reading `.stringConfig` of
it, or `.value` of an absent `stringConfig`, throws. -/
def jsStringConfigValue (l : List ConfigEntry) : Except JsError String :=
  match l.head? with
  | none => Except.error JsError.typeError
  | some e =>
    match e.stringConfig with
    | none => Except.error JsError.typeError
    | some sc => Except.ok sc.value

/-- Evaluation of `this.config[name]`: reading an index of an undefined
config map throws; otherwise the key's entry array or `undefined`. -/
def jsIndexConfig (cfg : Option ConfigMap) (name : String) :
    Except JsError (Option (List ConfigEntry)) :=
  match cfg with
  | none => Except.error JsError.typeError
  | some m => Except.ok (List.lookup name m)

/-- The `configStringValue(name)` accessor. -/
def configStringValue (ctx : SmartAppContext) (name : String) :
    Except JsError (Option String) :=
  match jsIndexConfig ctx.config name with
  | Except.error e => Except.error e
  | Except.ok none => Except.ok none
  | Except.ok (some l) =>
    match jsStringConfigValue l with
    | Except.error e => Except.error e
    | Except.ok v => Except.ok (some v)

/-- The `configBooleanValue(name)` accessor: `false` when the key is
absent, else `entry[0].stringConfig.value === 'true'`. -/
def configBooleanValue (ctx : SmartAppContext) (name : String) :
    Except JsError Bool :=
  match jsIndexConfig ctx.config name with
  | Except.error e => Except.error e
  | Except.ok none => Except.ok false
  | Except.ok (some l) =>
    match jsStringConfigValue l with
    | Except.error e => Except.error e
    | Except.ok v => Except.ok (v == "true")

/-- The `configNumberValue(name)` accessor: `Number(...)` coercion of the
first entry's scalar value. -/
def configNumberValue (h : JsHost) (ctx : SmartAppContext) (name : String) :
    Except JsError (Option JsNumber) :=
  match jsIndexConfig ctx.config name with
  | Except.error e => Except.error e
  | Except.ok none => Except.ok none
  | Except.ok (some l) =>
    match jsStringConfigValue l with
    | Except.error e => Except.error e
    | Except.ok v => Except.ok (some (h.toNumber v))

/-- The `configDateValue(name)` accessor: `new Date(...)` on the first
entry's scalar value. -/
def configDateValue (h : JsHost) (ctx : SmartAppContext) (name : String) :
    Except JsError (Option JsDate) :=
  match jsIndexConfig ctx.config name with
  | Except.error e => Except.error e
  | Except.ok none => Except.ok none
  | Except.ok (some l) =>
    match jsStringConfigValue l with
    | Except.error e => Except.error e
    | Except.ok v => Except.ok (some (h.parseDate v))

/-- The `configTimeString(name, options)` accessor. The guard `if (!entry)`
only catches `undefined` — a `Date` object, invalid or not, is truthy. The
second component of the result is the caller's options object after the
call, observing the default-filling mutation. -/
def configTimeString (h : JsHost) (ctx : SmartAppContext) (name : String)
    (options : TimeOptions) : Except JsError (Option String × TimeOptions) :=
  match configDateValue h ctx name with
  | Except.error e => Except.error e
  | Except.ok none => Except.ok (none, options)
  | Except.ok (some d) =>
    let options := defaultedOptions options
    Except.ok (some (h.formatTime d ctx.locale options), options)

/-- Evaluation of `it.modeConfig.modeId` on one config entry. -/
def jsModeId (e : ConfigEntry) : Except JsError String :=
  match e.modeConfig with
  | none => Except.error JsError.typeError
  | some m => Except.ok m.modeId

/-- Eager `Array.prototype.map` / sequential promise collection over a
fallible per-element computation: the first failure aborts the whole
traversal, otherwise all results are collected in order. -/
def exceptMap {ε α β : Type} (f : α → Except ε β) : List α → Except ε (List β)
  | [] => Except.ok []
  | x :: xs =>
    match f x with
    | Except.error e => Except.error e
    | Except.ok y =>
      match exceptMap f xs with
      | Except.error e => Except.error e
      | Except.ok ys => Except.ok (y :: ys)

/-- The `configModeIds(name)` accessor: all entries' mode ids, in order. -/
def configModeIds (ctx : SmartAppContext) (name : String) :
    Except JsError (Option (List String)) :=
  match jsIndexConfig ctx.config name with
  | Except.error e => Except.error e
  | Except.ok none => Except.ok none
  | Except.ok (some l) =>
    match exceptMap jsModeId l with
    | Except.error e => Except.error e
    | Except.ok ids => Except.ok (some ids)

/-- Remote-call failure carried by a rejected device or state lookup. -/
inductive ApiError
  | rejected (msg : String)
  deriving DecidableEq

/-- Reason a per-device promise chain rejects: a rejected remote call, or a
`TypeError` thrown inside a `.then` callback. -/
inductive RejectReason
  | api (e : ApiError)
  | thrown (e : JsError)
  deriving DecidableEq

/-- Device metadata returned by the remote `devices.get` lookup. -/
structure Device where
  deviceId : String
  name : String
  label : String
  deriving DecidableEq

/-- Opaque per-component state object. -/
abbrev StateObj := List (String × String)

/-- State returned by the remote `devices.getState` lookup; `components`
may be absent, in which case indexing it throws inside the promise chain. -/
structure DeviceState where
  components : Option (List (String × StateObj))
  deriving DecidableEq

/-- The `devices` sub-client of the external RemoteAPIClient collaborator
(`this.api.devices`), modelled as the settled outcome of each lookup. -/
structure DeviceApi where
  get : String → Except ApiError Device
  getState : String → Except ApiError DeviceState

/-- Aggregated device record produced by `configDevices` /
`configDevicesWithState`; `state` is only attached by the latter. -/
structure ConfigDevice where
  deviceId : String
  name : String
  label : String
  componentId : String
  state : Option StateObj
  deriving DecidableEq

/-- One iteration of the `configDevices` loop: destructure `componentId`
from `item.deviceConfig` (throwing when it is `undefined`) and issue the
metadata lookup, projecting the result. The outer layer is the synchronous
step, the inner the promise outcome. -/
def deviceLookup (dapi : DeviceApi) (item : ConfigEntry) :
    Except JsError (Except RejectReason ConfigDevice) :=
  match item.deviceConfig with
  | none => Except.error JsError.typeError
  | some dc =>
    Except.ok
      (match dapi.get dc.deviceId with
       | Except.error e => Except.error (RejectReason.api e)
       | Except.ok device =>
         Except.ok {
           deviceId := device.deviceId,
           name := device.name,
           label := device.label,
           componentId := dc.componentId,
           state := none })

/-- One iteration of the `configDevicesWithState` loop: the metadata lookup
of `deviceLookup` followed by the dependent `getState` lookup, attaching
`state.components[componentId]` to the record. -/
def deviceStateLookup (dapi : DeviceApi) (item : ConfigEntry) :
    Except JsError (Except RejectReason ConfigDevice) :=
  match item.deviceConfig with
  | none => Except.error JsError.typeError
  | some dc =>
    Except.ok
      (match dapi.get dc.deviceId with
       | Except.error e => Except.error (RejectReason.api e)
       | Except.ok device =>
         match dapi.getState device.deviceId with
         | Except.error e => Except.error (RejectReason.api e)
         | Except.ok st =>
           match st.components with
           | none => Except.error (RejectReason.thrown JsError.typeError)
           | some comps =>
             Except.ok {
               deviceId := device.deviceId,
               name := device.name,
               label := device.label,
               componentId := dc.componentId,
               state := List.lookup dc.componentId comps })

/-- `Promise.all` over an array of settled promises: rejects (with the
first rejection in array order, as a determinization of the race) unless
every promise fulfilled, in which case the values are kept in array order. -/
def promiseAll {β : Type} : List (Except RejectReason β) →
    Except RejectReason (List β)
  | [] => Except.ok []
  | p :: ps =>
    match p with
    | Except.error e => Except.error e
    | Except.ok v =>
      match promiseAll ps with
      | Except.error e => Except.error e
      | Except.ok vs => Except.ok (v :: vs)

/-- The `configDevices(name)` accessor: `undefined` when the key is absent,
otherwise `Promise.all` over one metadata lookup per config entry. -/
def configDevices (dapi : DeviceApi) (ctx : SmartAppContext) (name : String) :
    Except JsError (Option (Except RejectReason (List ConfigDevice))) :=
  match jsIndexConfig ctx.config name with
  | Except.error e => Except.error e
  | Except.ok none => Except.ok none
  | Except.ok (some l) =>
    match exceptMap (deviceLookup dapi) l with
    | Except.error e => Except.error e
    | Except.ok promises => Except.ok (some (promiseAll promises))

/-- The `configDevicesWithState(name)` accessor: as `configDevices` but
with the dependent state lookup chained per device. -/
def configDevicesWithState (dapi : DeviceApi) (ctx : SmartAppContext) (name : String) :
    Except JsError (Option (Except RejectReason (List ConfigDevice))) :=
  match jsIndexConfig ctx.config name with
  | Except.error e => Except.error e
  | Except.ok none => Except.ok none
  | Except.ok (some l) =>
    match exceptMap (deviceStateLookup dapi) l with
    | Except.error e => Except.error e
    | Except.ok promises => Except.ok (some (promiseAll promises))

/-! Concrete fixtures used by witnesses and counterexamples. -/

/-- A SmartApp with localization disabled and no context store. -/
def sampleApp : AppSettings where
  localizationEnabled := false
  clientId := some "cid"
  clientSecret := some "csecret"
  apiUrl := none
  refreshUrl := none
  contextStore := none

/-- A concrete host: one recognized date string and one recognized numeric
string; every other string parses to the invalid sentinel, and formatting
an invalid date yields the string `Invalid Date` as real hosts do. -/
def sampleHost : JsHost where
  parseDate := fun s =>
    if s = "2024-05-01T10:30" then JsDate.valid 1714559400000 else JsDate.invalid
  toNumber := fun s => if s = "42" then JsNumber.val 42 else JsNumber.nan
  formatTime := fun d _ _ =>
    match d with
    | JsDate.invalid => "Invalid Date"
    | JsDate.valid m => "@" ++ toString m

/-- A config entry tagged `stringConfig`. -/
def strEntry (v : String) : ConfigEntry where
  stringConfig := some { value := v }
  modeConfig := none
  deviceConfig := none

/-- A config entry tagged `deviceConfig`. -/
def devEntry (d c : String) : ConfigEntry where
  stringConfig := none
  modeConfig := none
  deviceConfig := some { deviceId := d, componentId := c }

/-- A plain already-normalized context over the given config map. -/
def plainCtx (cfg : Option ConfigMap) : SmartAppContext where
  app := sampleApp
  apiMutex := none
  event := emptyPayload
  executionId := some "exe-0"
  installedAppId := some "iapp-1"
  locationId := some "loc-1"
  config := cfg
  locale := some "en-US"
  headers := none
  api := ApiSlot.emptyObj none

/-- A device API whose `get` always fulfills and whose `getState` rejects
for device `d2` only. -/
def sampleDapi : DeviceApi where
  get := fun i => Except.ok { deviceId := i, name := "dev " ++ i, label := "Device " ++ i }
  getState := fun i =>
    if i = "d2" then Except.error (ApiError.rejected "state down")
    else Except.ok { components := some [("main", [("switch", "on")])] }

/-- A device API that rejects every lookup. -/
def downDapi : DeviceApi where
  get := fun _ => Except.error (ApiError.rejected "api down")
  getState := fun _ => Except.error (ApiError.rejected "api down")

/-- Config map with boolean-style string entries. -/
def boolCfg : ConfigMap :=
  [("on", [strEntry "true"]), ("off", [strEntry "false"]), ("weird", [strEntry "TRUE"])]

/-- Context over `boolCfg`. -/
def boolCtx : SmartAppContext := plainCtx (some boolCfg)

/-- Config map with one unparseable and one parseable date entry. -/
def timeCfg : ConfigMap :=
  [("when", [strEntry "not-a-date"]), ("at", [strEntry "2024-05-01T10:30"])]

/-- Context over `timeCfg`. -/
def timeCtx : SmartAppContext := plainCtx (some timeCfg)

/-- The empty plain options object `{}`. -/
def emptyOpts : TimeOptions where
  ctorIsObject := true
  hour := none
  minute := none
  extra := []

/-- Config map with two device entries. -/
def devCfg : ConfigMap := [("switches", [devEntry "d1" "main", devEntry "d2" "main"])]

/-- Context over `devCfg`. -/
def devCtx : SmartAppContext := plainCtx (some devCfg)

/-- An UPDATE payload whose client carries a language and whose root
locale differs from it. -/
def updatePayload : PayloadData :=
  { emptyPayload with
    lifecycle := some "UPDATE",
    executionId := some "exe-1",
    locale := some "en-US",
    client := some { language := some "fr" },
    updateData := some {
      authToken := some "tok-upd",
      refreshToken := some "ref-upd",
      installedApp := some {
        installedAppId := some "iapp-1",
        locationId := some "loc-1",
        config := some [("on", [strEntry "true"])] } } }

/-- An UNINSTALL payload; the arm that handles it assigns no config map. -/
def uninstallPayload : PayloadData :=
  { emptyPayload with
    lifecycle := some "UNINSTALL",
    executionId := some "exe-2",
    uninstallData := some {
      installedApp := some {
        installedAppId := some "iapp-1",
        locationId := some "loc-1",
        config := some [("on", [strEntry "true"])] } } }

/-- A payload with an unrecognized discriminator and root-level fields. -/
def pingPayload : PayloadData :=
  { emptyPayload with
    lifecycle := some "PING",
    locale := some "en-GB",
    authToken := some "root-tok",
    refreshToken := some "root-ref",
    installedAppId := some "iapp-9",
    locationId := some "loc-9",
    config := some [("on", [strEntry "true"])] }

/-- The remote client attached to `c5Ctx`. -/
def c5Api : SmartThingsApi :=
  buildApi sampleApp (some "tok") none (some "loc-1") (some "iapp-1") none

/-- A context holding a remote client, for exercising `setLocationId`. -/
def c5Ctx : SmartAppContext := { plainCtx (some boolCfg) with api := ApiSlot.client c5Api }

/-- A context whose configured store never has a record (lookup miss). -/
def c8Ctx : SmartAppContext :=
  { plainCtx (some boolCfg) with
    app := { sampleApp with contextStore := some (fun _ => none) } }

/-! Theorems settling the claims. -/

/-- C5: after `setLocationId id` the context's locationId equals `id`, and
whenever a remote client exists its locationId field equals the context's
locationId — the two copies never diverge. -/
theorem setLocationId_consistent (ctx : SmartAppContext) (id : String) :
    (setLocationId ctx id).locationId = some id ∧
    ∀ a, (setLocationId ctx id).api = ApiSlot.client a →
      a.locationId = (setLocationId ctx id).locationId := by
  refine ⟨rfl, fun a ha => ?_⟩
  show a.locationId = some id
  cases hapi : ctx.api with
  | emptyObj l =>
    simp only [setLocationId, hapi] at ha
    exact absurd ha (by simp)
  | client b =>
    simp only [setLocationId, hapi] at ha
    injection ha with h
    rw [← h]

/-- Witness for C5 at a context holding a remote client. -/
theorem setLocationId_consistent_witness :
    (setLocationId c5Ctx "loc-2").locationId = some "loc-2" ∧
    ((setLocationId c5Ctx "loc-2").api =
        ApiSlot.client { c5Api with locationId := some "loc-2" } →
      ({ c5Api with locationId := some "loc-2" } : SmartThingsApi).locationId =
        (setLocationId c5Ctx "loc-2").locationId) := by
  have h := setLocationId_consistent c5Ctx "loc-2"
  exact ⟨h.1, h.2 _⟩

/-- C8: `retrieveTokens` with no configured context store, or with a store
lookup miss, leaves every field unchanged and returns the same context. -/
theorem retrieveTokens_noop (ctx : SmartAppContext) (h : storeLookup ctx = none) :
    retrieveTokens ctx = ctx := by
  cases hs : ctx.app.contextStore with
  | none => simp only [retrieveTokens, hs]
  | some store =>
    have h' : store ctx.installedAppId = none := by
      simpa [storeLookup, hs] using h
    simp only [retrieveTokens, hs, h']

/-- Witness for C8 at a context whose configured store misses. -/
theorem retrieveTokens_noop_witness : retrieveTokens c8Ctx = c8Ctx :=
  retrieveTokens_noop c8Ctx rfl

/-- C7: `configBooleanValue` is `false` when the key is absent and is the
string comparison `value === 'true'` on the first entry otherwise. -/
theorem configBooleanValue_spec (ctx : SmartAppContext) (name : String)
    (cfg : ConfigMap) (hcfg : ctx.config = some cfg) :
    (List.lookup name cfg = none → configBooleanValue ctx name = Except.ok false) ∧
    ∀ l e sc, List.lookup name cfg = some l → l.head? = some e →
      e.stringConfig = some sc →
      configBooleanValue ctx name = Except.ok (sc.value == "true") := by
  constructor
  · intro hk
    simp [configBooleanValue, jsIndexConfig, hcfg, hk]
  · intro l e sc hk hh hsc
    simp [configBooleanValue, jsIndexConfig, jsStringConfigValue, hcfg, hk, hh, hsc]

/-- Witness for C7: stored `"true"` gives `true`; stored `"false"`, stored
`"TRUE"` and a missing key all give `false`. -/
theorem configBooleanValue_spec_witness :
    configBooleanValue boolCtx "on" = Except.ok true ∧
    configBooleanValue boolCtx "off" = Except.ok false ∧
    configBooleanValue boolCtx "weird" = Except.ok false ∧
    configBooleanValue boolCtx "missing" = Except.ok false := by
  have h1 := (configBooleanValue_spec boolCtx "on" boolCfg rfl).2
    [strEntry "true"] (strEntry "true") { value := "true" } rfl rfl rfl
  have h2 := (configBooleanValue_spec boolCtx "off" boolCfg rfl).2
    [strEntry "false"] (strEntry "false") { value := "false" } rfl rfl rfl
  have h3 := (configBooleanValue_spec boolCtx "weird" boolCfg rfl).2
    [strEntry "TRUE"] (strEntry "TRUE") { value := "TRUE" } rfl rfl rfl
  have h4 := (configBooleanValue_spec boolCtx "missing" boolCfg rfl).1 rfl
  exact ⟨h1, h2, h3, h4⟩

/-- C9: constructing a context from an UPDATE payload mutates the caller's
payload object, leaving its client field `undefined` after the call. -/
theorem update_clears_client (app : AppSettings) (data : PayloadData)
    (mu : Option ApiMutex)
    (hdisc : jsOrStr data.lifecycle data.messageType = some "UPDATE") :
    (normalizeLifecycle app data mu).2.client = none := by
  simp [normalizeLifecycle, hdisc, clearClientIfUpdate]

/-- Witness for C9: the payload's client was present before the call and is
cleared after it. -/
theorem update_clears_client_witness :
    updatePayload.client = some { language := some "fr" } ∧
    (normalizeLifecycle sampleApp updatePayload none).2.client = none :=
  ⟨rfl, update_clears_client sampleApp updatePayload none rfl⟩

/-- C1 (amended): when the config map is present but the named key is
absent, every accessor resolves to its empty/undefined/false result without
throwing; when the config map itself is missing (as after UNINSTALL), every
accessor throws a TypeError. -/
theorem configAccessors_soft_absence (h : JsHost) (dapi : DeviceApi)
    (ctx : SmartAppContext) (name : String) (opts : TimeOptions) :
    (∀ cfg, ctx.config = some cfg → List.lookup name cfg = none →
      configStringValue ctx name = Except.ok none ∧
      configBooleanValue ctx name = Except.ok false ∧
      configNumberValue h ctx name = Except.ok none ∧
      configDateValue h ctx name = Except.ok none ∧
      configTimeString h ctx name opts = Except.ok (none, opts) ∧
      configModeIds ctx name = Except.ok none ∧
      configDevices dapi ctx name = Except.ok none ∧
      configDevicesWithState dapi ctx name = Except.ok none) ∧
    (ctx.config = none →
      configStringValue ctx name = Except.error JsError.typeError ∧
      configBooleanValue ctx name = Except.error JsError.typeError ∧
      configNumberValue h ctx name = Except.error JsError.typeError ∧
      configDateValue h ctx name = Except.error JsError.typeError ∧
      configTimeString h ctx name opts = Except.error JsError.typeError ∧
      configModeIds ctx name = Except.error JsError.typeError ∧
      configDevices dapi ctx name = Except.error JsError.typeError ∧
      configDevicesWithState dapi ctx name = Except.error JsError.typeError) := by
  constructor
  · intro cfg hcfg hk
    refine ⟨?_, ?_, ?_, ?_, ?_, ?_, ?_, ?_⟩ <;>
      simp [configStringValue, configBooleanValue, configNumberValue, configDateValue,
        configTimeString, configModeIds, configDevices, configDevicesWithState,
        jsIndexConfig, hcfg, hk]
  · intro hnone
    refine ⟨?_, ?_, ?_, ?_, ?_, ?_, ?_, ?_⟩ <;>
      simp [configStringValue, configBooleanValue, configNumberValue, configDateValue,
        configTimeString, configModeIds, configDevices, configDevicesWithState,
        jsIndexConfig, hnone]

/-- Witness for C1 (amended) at a present map with a missing key. -/
theorem configAccessors_soft_absence_witness :
    configStringValue boolCtx "missing" = Except.ok none ∧
    configBooleanValue boolCtx "missing" = Except.ok false ∧
    configModeIds boolCtx "missing" = Except.ok none ∧
    configDevices downDapi boolCtx "missing" = Except.ok none := by
  have h := (configAccessors_soft_absence sampleHost downDapi boolCtx "missing" emptyOpts).1
    boolCfg rfl rfl
  exact ⟨h.1, h.2.1, h.2.2.2.2.2.1, h.2.2.2.2.2.2.1⟩

/-- Counterexample to C1 as stated: on a context normalized from an
UNINSTALL payload the config map is `undefined`, and an accessor throws a
TypeError instead of returning an empty result. -/
theorem configAccessors_missing_map_cex :
    Except.map (fun c => configStringValue c "minutes")
      (normalizeLifecycle sampleApp uninstallPayload none).1
      = Except.ok (Except.error JsError.typeError) := rfl

/-- C3 (amended): `configTimeString` returns undefined only when the key is
absent; when the key holds a stored string it formats the parsed date even
if the parse produced the invalid-date sentinel, defaulting the options. -/
theorem configTimeString_amended (h : JsHost) (ctx : SmartAppContext)
    (name : String) (opts : TimeOptions) (cfg : ConfigMap)
    (hcfg : ctx.config = some cfg) :
    (List.lookup name cfg = none →
      configTimeString h ctx name opts = Except.ok (none, opts)) ∧
    ∀ l e sc, List.lookup name cfg = some l → l.head? = some e →
      e.stringConfig = some sc →
      configTimeString h ctx name opts =
        Except.ok (some (h.formatTime (h.parseDate sc.value) ctx.locale
          (defaultedOptions opts)), defaultedOptions opts) := by
  constructor
  · intro hk
    simp [configTimeString, configDateValue, jsIndexConfig, hcfg, hk]
  · intro l e sc hk hh hsc
    simp [configTimeString, configDateValue, jsIndexConfig, jsStringConfigValue,
      hcfg, hk, hh, hsc]

/-- Witness for C3 (amended) at a parseable date entry. -/
theorem configTimeString_amended_witness :
    configTimeString sampleHost timeCtx "at" emptyOpts =
      Except.ok (some (sampleHost.formatTime (sampleHost.parseDate "2024-05-01T10:30")
        timeCtx.locale (defaultedOptions emptyOpts)), defaultedOptions emptyOpts) :=
  (configTimeString_amended sampleHost timeCtx "at" emptyOpts timeCfg rfl).2
    [strEntry "2024-05-01T10:30"] (strEntry "2024-05-01T10:30")
    { value := "2024-05-01T10:30" } rfl rfl rfl

/-- Counterexample to C3 as stated: an unparseable stored date yields an
invalid `Date` object, which is truthy, so the accessor returns the host's
formatting of the invalid date instead of undefined. -/
theorem configTimeString_invalid_cex :
    sampleHost.parseDate "not-a-date" = JsDate.invalid ∧
    Except.map Prod.fst (configTimeString sampleHost timeCtx "when" emptyOpts)
      = Except.ok (some "Invalid Date") := ⟨rfl, rfl⟩

/-- C10: on an empty plain options object and a present date value,
`configTimeString` mutates the caller's options object, inserting the
default hour and minute keys. -/
theorem configTimeString_mutates_options (h : JsHost) (ctx : SmartAppContext)
    (name : String) (opts : TimeOptions) (d : JsDate)
    (hctor : opts.ctorIsObject = true) (hh : opts.hour = none)
    (hm : opts.minute = none) (hx : opts.extra = [])
    (hd : configDateValue h ctx name = Except.ok (some d)) :
    Except.map Prod.snd (configTimeString h ctx name opts)
      = Except.ok { opts with hour := some "2-digit", minute := some "2-digit" } ∧
    { opts with hour := some "2-digit", minute := some "2-digit" } ≠ opts := by
  constructor
  · simp [configTimeString, hd, defaultedOptions, TimeOptions.isEmptyObj,
      hctor, hh, hm, hx, Except.map]
  · intro he
    have hcong := congrArg TimeOptions.hour he
    simp [hh] at hcong

/-- Witness for C10 at a concrete context, date key and empty options. -/
theorem configTimeString_mutates_options_witness :
    Except.map Prod.snd (configTimeString sampleHost timeCtx "at" emptyOpts)
      = Except.ok { emptyOpts with hour := some "2-digit", minute := some "2-digit" } ∧
    { emptyOpts with hour := some "2-digit", minute := some "2-digit" } ≠ emptyOpts :=
  configTimeString_mutates_options sampleHost timeCtx "at" emptyOpts
    (JsDate.valid 1714559400000) rfl rfl rfl rfl rfl

/-- C2 (amended): for an UPDATE payload the client field is cleared before
the locale is resolved, so the context's locale always comes from the
payload's root-level locale field and the client field is cleared after
the constructor returns. -/
theorem update_locale_amended (app : AppSettings) (data : PayloadData)
    (mu : Option ApiMutex)
    (hdisc : jsOrStr data.lifecycle data.messageType = some "UPDATE") :
    (normalizeLifecycle app data mu).2.client = none ∧
    ∀ c, (normalizeLifecycle app data mu).1 = Except.ok c →
      c.locale = data.locale := by
  constructor
  · simp [normalizeLifecycle, hdisc, clearClientIfUpdate]
  · intro c hc
    simp only [normalizeLifecycle, hdisc] at hc
    rw [show clearClientIfUpdate (some "UPDATE") data
        = { data with client := none } from rfl] at hc
    rw [show runBranch (some "UPDATE") { data with client := none } =
        (match data.updateData with
         | none => Except.error JsError.typeError
         | some udata =>
           match udata.installedApp with
           | none => Except.error JsError.typeError
           | some ia =>
             Except.ok {
               authToken := udata.authToken,
               refreshToken := udata.refreshToken,
               executionId := data.executionId,
               installedAppId := ia.installedAppId,
               locationId := ia.locationId,
               config := ia.config,
               locale := localeFromClient { data with client := none } }) from rfl] at hc
    cases hud : data.updateData with
    | none =>
      simp only [hud] at hc
      exact absurd hc (by simp)
    | some udata =>
      simp only [hud] at hc
      cases hia : udata.installedApp with
      | none =>
        simp only [hia] at hc
        exact absurd hc (by simp)
      | some ia =>
        simp only [hia] at hc
        injection hc with hceq
        rw [← hceq]
        simp [mkContext, localeFromClient, jsOrStr, jsTruthy]

/-- Witness for C2 (amended): at the concrete UPDATE payload the locale
resolves from the root field. -/
theorem update_locale_amended_witness :
    (normalizeLifecycle sampleApp updatePayload none).2.client = none ∧
    Except.map (fun c => c.locale) (normalizeLifecycle sampleApp updatePayload none).1
      = Except.ok (some "en-US") := by
  have h := update_locale_amended sampleApp updatePayload none rfl
  exact ⟨h.1, rfl⟩

/-- Counterexample to C2 as stated: the client language `fr` is present on
the raw UPDATE payload, yet the resulting locale is the root-level `en-US`,
because the client field is cleared before, not after, locale resolution. -/
theorem update_locale_cex :
    updatePayload.client = some { language := some "fr" } ∧
    updatePayload.locale = some "en-US" ∧
    Except.map (fun c => c.locale) (normalizeLifecycle sampleApp updatePayload none).1
      = Except.ok (some "en-US") ∧
    (some "en-US" : Option String) ≠ some "fr" :=
  ⟨rfl, rfl, rfl, by decide⟩

/-- C6: an unrecognized discriminator falls through to the proactive
default arm without throwing, reading installedAppId, locationId, config,
locale, authToken and refreshToken from the payload's root-level fields. -/
theorem unknownLifecycleDefaults (app : AppSettings) (data : PayloadData)
    (mu : Option ApiMutex)
    (hdisc : ∀ s ∈ knownLifecycles, jsOrStr data.lifecycle data.messageType ≠ some s) :
    ∃ c, (normalizeLifecycle app data mu).1 = Except.ok c ∧
      c.installedAppId = data.installedAppId ∧
      c.locationId = data.locationId ∧
      c.config = data.config ∧
      c.locale = data.locale ∧
      c.executionId = some "" ∧
      c.api = (if jsTruthy data.authToken then
          ApiSlot.client (buildApi app data.authToken data.refreshToken
            data.locationId data.installedAppId mu)
        else ApiSlot.emptyObj none) ∧
      (normalizeLifecycle app data mu).2 = data := by
  have h1 := hdisc "EVENT" (by decide)
  have h2 := hdisc "INSTALL" (by decide)
  have h3 := hdisc "UPDATE" (by decide)
  have h4 := hdisc "CONFIGURATION" (by decide)
  have h5 := hdisc "UNINSTALL" (by decide)
  have h6 := hdisc "EXECUTE" (by decide)
  have hn : normalizeLifecycle app data mu =
      (Except.ok (mkContext app data mu {
        authToken := data.authToken,
        refreshToken := data.refreshToken,
        executionId := some "",
        installedAppId := data.installedAppId,
        locationId := data.locationId,
        config := data.config,
        locale := data.locale }), data) := by
    simp [normalizeLifecycle, clearClientIfUpdate, runBranch, h1, h2, h3, h4, h5, h6]
  exact ⟨_, by rw [hn], rfl, rfl, rfl, rfl, rfl, rfl, by rw [hn]⟩

/-- Witness for C6 at a payload with discriminator `PING`. -/
theorem unknownLifecycleDefaults_witness :
    Except.map (fun c => (c.installedAppId, c.locationId, c.config, c.locale))
      (normalizeLifecycle sampleApp pingPayload none).1
      = Except.ok (some "iapp-9", some "loc-9", pingPayload.config, some "en-GB") := by
  obtain ⟨c, hc, hia, hloc, hcfg, hlocale, _, _, _⟩ :=
    unknownLifecycleDefaults sampleApp pingPayload none (by decide)
  rw [hc, Except.map, hia, hloc, hcfg, hlocale]
  exact rfl

/-- Collecting a list of fallible computations succeeds when each element
does. -/
theorem exceptMap_ok {ε α β : Type} (f : α → Except ε β) (l : List α)
    (hall : ∀ a ∈ l, ∃ b, f a = Except.ok b) :
    ∃ bs, exceptMap f l = Except.ok bs := by
  induction l with
  | nil => exact ⟨[], rfl⟩
  | cons x xs ih =>
    obtain ⟨b, hb⟩ := hall x (by simp)
    obtain ⟨bs, hbs⟩ := ih (fun a ha => hall a (by simp [ha]))
    exact ⟨b :: bs, by simp [exceptMap, hb, hbs]⟩

/-- When every per-item synchronous step succeeds but some item's promise
rejects, the fan-out produces a promise list whose `Promise.all` rejects. -/
theorem aggregate_rejects {α β : Type}
    (f : α → Except JsError (Except RejectReason β)) (l : List α)
    (hall : ∀ a ∈ l, ∃ b, f a = Except.ok b)
    (hfail : ∃ a, a ∈ l ∧ ∃ e, f a = Except.ok (Except.error e)) :
    ∃ ps e', exceptMap f l = Except.ok ps ∧ promiseAll ps = Except.error e' := by
  induction l with
  | nil =>
    obtain ⟨a, ha, _⟩ := hfail
    exact absurd ha (List.not_mem_nil a)
  | cons x xs ih =>
    obtain ⟨b, hb⟩ := hall x (by simp)
    obtain ⟨a, ha, e, hae⟩ := hfail
    rcases List.mem_cons.mp ha with rfl | hmem
    · rw [hb] at hae
      injection hae with hbe
      subst hbe
      obtain ⟨bs, hbs⟩ := exceptMap_ok f xs (fun a' ha' => hall a' (by simp [ha']))
      exact ⟨Except.error e :: bs, e, by simp [exceptMap, hb, hbs], rfl⟩
    · obtain ⟨ps, e', hps, hpa⟩ :=
        ih (fun a' ha' => hall a' (by simp [ha'])) ⟨a, hmem, e, hae⟩
      cases b with
      | error e0 =>
        exact ⟨Except.error e0 :: ps, e0, by simp [exceptMap, hb, hps], rfl⟩
      | ok v =>
        exact ⟨Except.ok v :: ps, e', by simp [exceptMap, hb, hps],
          by simp [promiseAll, hpa]⟩

/-- A well-formed device entry makes the synchronous step of the
`configDevices` loop succeed (the promise may still reject). -/
theorem deviceLookup_ok (dapi : DeviceApi) (item : ConfigEntry)
    (h : (item.deviceConfig).isSome = true) :
    ∃ b, deviceLookup dapi item = Except.ok b := by
  cases hdc : item.deviceConfig with
  | none => rw [hdc] at h; simp at h
  | some dc =>
    unfold deviceLookup
    rw [hdc]
    exact ⟨_, rfl⟩

/-- A well-formed device entry makes the synchronous step of the
`configDevicesWithState` loop succeed (the promise may still reject). -/
theorem deviceStateLookup_ok (dapi : DeviceApi) (item : ConfigEntry)
    (h : (item.deviceConfig).isSome = true) :
    ∃ b, deviceStateLookup dapi item = Except.ok b := by
  cases hdc : item.deviceConfig with
  | none => rw [hdc] at h; simp at h
  | some dc =>
    unfold deviceStateLookup
    rw [hdc]
    exact ⟨_, rfl⟩

/-- C4: if any single per-device promise chain of `configDevices` or
`configDevicesWithState` rejects (in particular a state lookup rejecting
after every metadata lookup fulfilled), the whole aggregate call rejects
and no partial list is produced. -/
theorem configDevices_all_or_nothing (dapi : DeviceApi) (ctx : SmartAppContext)
    (name : String) (cfg : ConfigMap) (l : List ConfigEntry)
    (hcfg : ctx.config = some cfg) (hkey : List.lookup name cfg = some l)
    (hWell : ∀ i ∈ l, (ConfigEntry.deviceConfig i).isSome = true) :
    ((∃ i, i ∈ l ∧ ∃ e, deviceLookup dapi i = Except.ok (Except.error e)) →
      ∃ e', configDevices dapi ctx name = Except.ok (some (Except.error e'))) ∧
    ((∃ i, i ∈ l ∧ ∃ e, deviceStateLookup dapi i = Except.ok (Except.error e)) →
      ∃ e', configDevicesWithState dapi ctx name
        = Except.ok (some (Except.error e'))) := by
  constructor
  · intro hfail
    obtain ⟨ps, e', hps, hpa⟩ := aggregate_rejects (deviceLookup dapi) l
      (fun i hi => deviceLookup_ok dapi i (hWell i hi)) hfail
    exact ⟨e', by simp [configDevices, jsIndexConfig, hcfg, hkey, hps, hpa]⟩
  · intro hfail
    obtain ⟨ps, e', hps, hpa⟩ := aggregate_rejects (deviceStateLookup dapi) l
      (fun i hi => deviceStateLookup_ok dapi i (hWell i hi)) hfail
    exact ⟨e', by simp [configDevicesWithState, jsIndexConfig, hcfg, hkey, hps, hpa]⟩

/-- Witness for C4: both metadata lookups fulfill but the state lookup for
the second device rejects, and the whole aggregate call rejects. -/
theorem configDevices_all_or_nothing_witness :
    ∃ e', configDevicesWithState sampleDapi devCtx "switches"
      = Except.ok (some (Except.error e')) :=
  (configDevices_all_or_nothing sampleDapi devCtx "switches" devCfg
      [devEntry "d1" "main", devEntry "d2" "main"] rfl rfl (by decide)).2
    ⟨devEntry "d2" "main", by decide,
      RejectReason.api (ApiError.rejected "state down"), rfl⟩

end SmartAppSdk
